import Mathlib

/-!
Shallow embedding of `scripts/verify_gpg.py` from the mise-gettext-dagger
repository: the mirror-fallback download routine, the keyserver-fallback GPG
key import, signature verification, config-file reading, and the `main`
driver that combines them under the `--skip-verify` and `--allow-insecure`
policy flags.

External effects are modelled by explicit oracles: the network is a function
from URL to a `MirrorOutcome`, keyservers a function from keyserver URL to a
`KeyserverOutcome`, the gpg binary presence a boolean, and the result of
`gpg --verify` a `VerifyOutcome`.  The filesystem state touched by the script
(the output directory and the two destination files) is threaded explicitly.
-/

namespace VerifyGpg

/-- Outcome of one HTTP GET as observed by `download_file_with_retry`:
either the full body is served (`ok`), or a `requests.RequestException` is
raised before the destination file is opened (connection error, timeout, or
non-2xx status raised by `raise_for_status`) (`reqError`), or the response
status is 2xx but the body stream breaks mid-transfer after `written` bytes
were already written to the opened destination file (`streamBreak`). -/
inductive MirrorOutcome where
  | ok (content : List Nat)
  | reqError (msg : String)
  | streamBreak (written : List Nat) (msg : String)
deriving DecidableEq

/-- Whether the outcome is a complete successful download. -/
def MirrorOutcome.isOk : MirrorOutcome → Bool
  | .ok _ => true
  | .reqError _ => false
  | .streamBreak _ _ => false

/-- The filesystem state relevant to one `download_file_with_retry` call:
whether the parent directory of the destination exists, and the contents of
the destination file (`none` when no file is present at that path). -/
structure FsState where
  parentExists : Bool
  file : Option (List Nat)
deriving DecidableEq

/-- Result of the mirror loop inside `download_file_with_retry`: the returned
boolean, the destination file contents afterwards, the mirrors contacted (one
HTTP GET each, in order), and the error recorded to stderr for each failed
attempt (mirror paired with the exception message, in order). -/
structure DlResult where
  success : Bool
  file : Option (List Nat)
  contacted : List String
  errors : List (String × String)
deriving DecidableEq

/-- The `for mirror in mirrors` loop of `download_file_with_retry`
(verify_gpg.py lines 38-60).  For each mirror the URL `{mirror}/{filename}`
is requested; on success the body is streamed into the destination opened
with mode `wb` (truncating) and the loop returns immediately; on a
`RequestException` the error is recorded and the next mirror is tried.  A
stream that breaks mid-transfer leaves the bytes written so far in the
destination file and is recorded like any other request error. -/
def downloadFrom (filename : String) (net : String → MirrorOutcome)
    (file : Option (List Nat)) : List String → DlResult
  | [] => ⟨false, file, [], []⟩
  | m :: rest =>
    match net (m ++ "/" ++ filename) with
    | .ok content => ⟨true, some content, [m], []⟩
    | .reqError msg =>
      let r := downloadFrom filename net file rest
      ⟨r.success, r.file, m :: r.contacted, (m, msg) :: r.errors⟩
    | .streamBreak written msg =>
      let r := downloadFrom filename net (some written) rest
      ⟨r.success, r.file, m :: r.contacted, (m, msg) :: r.errors⟩

/-- Result of `download_file_with_retry`: the boolean it returns, the
filesystem state of the destination afterwards, and the contact/error log. -/
structure FetchResult where
  success : Bool
  fs : FsState
  contacted : List String
  errors : List (String × String)
deriving DecidableEq

/-- `download_file_with_retry(filename, output_path, mirrors)`
(verify_gpg.py lines 34-60): first `output_path.parent.mkdir(parents=True,
exist_ok=True)`, then the mirror loop. -/
def download_file_with_retry (filename : String) (net : String → MirrorOutcome)
    (fs : FsState) (mirrors : List String) : FetchResult :=
  let r := downloadFrom filename net fs.file mirrors
  ⟨r.success, ⟨true, r.file⟩, r.contacted, r.errors⟩

/-- Outcome of one `gpg --keyserver {ks} --recv-keys {keys}` invocation as
observed by `import_gpg_keys`: success, `subprocess.TimeoutExpired`, or
`subprocess.CalledProcessError` with the captured stderr. -/
inductive KeyserverOutcome where
  | ok
  | timeout
  | failed (stderr : String)
deriving DecidableEq

/-- The hardcoded keyserver fallback list of `import_gpg_keys`
(verify_gpg.py lines 65-69). -/
def keyservers : List String :=
  ["hkps://keys.openpgp.org", "hkps://keyserver.ubuntu.com", "hkps://pgp.mit.edu"]

/-- Result of `import_gpg_keys`: the returned boolean and the keyservers that
were actually contacted, in order. -/
structure ImportResult where
  success : Bool
  contacted : List String
deriving DecidableEq

/-- The `for keyserver in keyservers` loop of `import_gpg_keys`
(verify_gpg.py lines 73-96).  When the gpg binary is absent,
`subprocess.run` raises `FileNotFoundError` before any network contact and
the function returns False immediately; a timeout or a non-zero exit from
gpg moves on to the next keyserver; exhausting the list returns False. -/
def importFrom (gpgPresent : Bool) (ks : String → KeyserverOutcome) :
    List String → ImportResult
  | [] => ⟨false, []⟩
  | s :: rest =>
    if gpgPresent then
      match ks s with
      | .ok => ⟨true, [s]⟩
      | .timeout =>
        let r := importFrom gpgPresent ks rest
        ⟨r.success, s :: r.contacted⟩
      | .failed _ =>
        let r := importFrom gpgPresent ks rest
        ⟨r.success, s :: r.contacted⟩
    else ⟨false, []⟩

/-- `import_gpg_keys(keys)` (verify_gpg.py lines 63-96): the keyserver loop
over the hardcoded keyserver list.  The key list itself only parametrises the
gpg invocation, whose outcome the `ks` oracle supplies. -/
def import_gpg_keys (gpgPresent : Bool) (ks : String → KeyserverOutcome)
    (keys : List String) : ImportResult :=
  importFrom gpgPresent ks keyservers

/-- Outcome of `gpg --verify {signature} {tarball}` as observed by
`verify_signature`: success, or `subprocess.CalledProcessError` with the
captured stderr. -/
inductive VerifyOutcome where
  | ok
  | failed (stderr : String)
deriving DecidableEq

/-- `verify_signature(tarball, signature)` (verify_gpg.py lines 99-113):
returns True on a zero gpg exit status, False on `CalledProcessError`. -/
def verify_signature : VerifyOutcome → Bool
  | .ok => true
  | .failed _ => false

/-- Python `str.strip()`: drop leading and trailing whitespace.  Written by
structural recursion over the character list so that it evaluates. -/
def pyStrip (s : String) : String :=
  ⟨((s.data.dropWhile Char.isWhitespace).reverse.dropWhile Char.isWhitespace).reverse⟩

/-- Python `str.startswith(p)`: the characters of `p` are a prefix of the
characters of `s`. -/
def pyStartsWith (p s : String) : Bool :=
  p.data.isPrefixOf s.data

/-- The line filter of `read_config_file` (verify_gpg.py lines 25-31): strip
each line, keep it when it is non-empty and does not start with `#`. -/
def parseLines (ls : List String) : List String :=
  (ls.map pyStrip).filter (fun l => !(l == "") && !(pyStartsWith "#" l))

/-- `read_config_file(filename)` (verify_gpg.py lines 18-31): the argument is
the raw line list of the config file, or `none` when the file does not exist,
in which case the script does `sys.exit(1)` (modelled as `Except.error 1`). -/
def read_config_file (contents : Option (List String)) : Except Nat (List String) :=
  match contents with
  | none => .error 1
  | some ls => .ok (parseLines ls)

/-- The parsed command line of `main` (verify_gpg.py lines 117-142). -/
structure Args where
  version : String
  mirror : Option String
  output_dir : String
  skip_verify : Bool
  allow_insecure : Bool
deriving DecidableEq

/-- The external world `main` runs against: the raw contents of the two
config files (`none` = file absent), the HTTP network keyed by URL, whether
the gpg binary is installed, the keyserver behaviour, and the result of the
final `gpg --verify`. -/
structure World where
  gpgKeysFile : Option (List String)
  mirrorsFile : Option (List String)
  net : String → MirrorOutcome
  gpgPresent : Bool
  ks : String → KeyserverOutcome
  verify : VerifyOutcome

/-- The filesystem slots `main` touches: the output directory and the two
destination files `gettext-{version}.tar.gz` and `.sig` inside it. -/
structure Fs where
  outDirExists : Bool
  tarball : Option (List Nat)
  sig : Option (List Nat)
deriving DecidableEq

/-- Observable result of a `main` run: the process exit code, every mirror
HTTP GET issued (mirror paired with requested filename, in order), every
keyserver contacted, the WARNING lines printed, and the final filesystem. -/
structure MainResult where
  exitCode : Nat
  requests : List (String × String)
  keyserverContacts : List String
  warnings : List String
  fs : Fs
deriving DecidableEq

/-- `f"gettext-{version}.tar.gz"` (verify_gpg.py lines 155, 159). -/
def tarballFilename (version : String) : String :=
  "gettext-" ++ version ++ ".tar.gz"

/-- `f"gettext-{version}.tar.gz.sig"` (verify_gpg.py lines 156, 170). -/
def sigFilename (version : String) : String :=
  "gettext-" ++ version ++ ".tar.gz.sig"

/-- The mirror list built in `main` (verify_gpg.py lines 149-152): the
`--mirror` argument first when given and non-empty (Python truthiness of
`if args.mirror:`), then the mirrors from the config file. -/
def mirrorUrls (a : Args) (mirrors : List String) : List String :=
  (match a.mirror with
   | some m => if m == "" then [] else [m]
   | none => []) ++ mirrors

/-- `main` (verify_gpg.py lines 116-201) as a function of the parsed
arguments, the external world and the initial filesystem. -/
def main (a : Args) (w : World) (fs : Fs) : MainResult :=
  match read_config_file w.gpgKeysFile with
  | .error code => ⟨code, [], [], [], fs⟩
  | .ok gpg_keys =>
    match read_config_file w.mirrorsFile with
    | .error code => ⟨code, [], [], [], fs⟩
    | .ok mirrors =>
      let mirror_urls := mirrorUrls a mirrors
      let tarball_filename := tarballFilename a.version
      let r1 := download_file_with_retry tarball_filename w.net
        ⟨fs.outDirExists, fs.tarball⟩ mirror_urls
      let fs1 : Fs := ⟨r1.fs.parentExists, r1.fs.file, fs.sig⟩
      let reqs1 := r1.contacted.map (fun m => (m, tarball_filename))
      if r1.success = false then ⟨1, reqs1, [], [], fs1⟩
      else if a.skip_verify then
        ⟨0, reqs1, [], ["WARNING: Skipping GPG verification (--skip-verify)"], fs1⟩
      else
        let sig_filename := sigFilename a.version
        let r2 := download_file_with_retry sig_filename w.net
          ⟨fs1.outDirExists, fs1.sig⟩ mirror_urls
        let fs2 : Fs := ⟨r2.fs.parentExists, fs1.tarball, r2.fs.file⟩
        let reqs2 := reqs1 ++ r2.contacted.map (fun m => (m, sig_filename))
        if r2.success = false then
          if a.allow_insecure then
            ⟨0, reqs2, [], ["WARNING: Could not download signature, continuing anyway"], fs2⟩
          else ⟨1, reqs2, [], [], fs2⟩
        else
          let ri := import_gpg_keys w.gpgPresent w.ks gpg_keys
          if ri.success = false then
            if a.allow_insecure then
              ⟨0, reqs2, ri.contacted,
                ["WARNING: Could not import GPG keys, continuing anyway"], fs2⟩
            else ⟨1, reqs2, ri.contacted, [], fs2⟩
          else if verify_signature w.verify = false then
            if a.allow_insecure then
              ⟨0, reqs2, ri.contacted,
                ["WARNING: GPG signature verification FAILED!",
                 "WARNING: Continuing build anyway (--allow-insecure)",
                 "WARNING: This tarball could be tampered with!"], fs2⟩
            else ⟨1, reqs2, ri.contacted, [], fs2⟩
          else ⟨0, reqs2, ri.contacted, [], fs2⟩

/-- The mirror list `main` ends up using, read off the world. -/
def mirrorsOf (w : World) : List String :=
  parseLines (w.mirrorsFile.getD [])

/-- The tarball download step of `main` (verify_gpg.py line 160). -/
def tarballFetch (a : Args) (w : World) (fs : Fs) : FetchResult :=
  download_file_with_retry (tarballFilename a.version) w.net
    ⟨fs.outDirExists, fs.tarball⟩ (mirrorUrls a (mirrorsOf w))

/-- The signature download step of `main` (verify_gpg.py line 171); by the
time it runs, the output directory exists (created by the tarball step). -/
def sigFetch (a : Args) (w : World) (fs : Fs) : FetchResult :=
  download_file_with_retry (sigFilename a.version) w.net
    ⟨true, fs.sig⟩ (mirrorUrls a (mirrorsOf w))

/-- Both config files exist. -/
def configsOk (w : World) : Bool :=
  w.gpgKeysFile.isSome && w.mirrorsFile.isSome

/-! ### Concrete worlds used by counterexamples and witnesses -/

/-- A network on which every request fails with an HTTP error. -/
def netFailAll : String → MirrorOutcome := fun _ =>
  .reqError "404 Client Error: Not Found"

/-- A network on which every request answers 2xx but the body stream breaks
after the gzip magic bytes `[31, 139]` were written. -/
def netStreamBreak : String → MirrorOutcome := fun _ =>
  .streamBreak [31, 139] "ChunkedEncodingError: connection broken"

/-- A network on which every request serves a complete body. -/
def netOkAll : String → MirrorOutcome := fun _ => .ok [31, 139, 8, 0]

/-- A network on which mirror m1 returns 404 and every other mirror serves
the file. -/
def netM1Fails : String → MirrorOutcome := fun url =>
  if url == "https://m1/gettext-0.26.tar.gz" then .reqError "404 Client Error: Not Found"
  else .ok [31, 139, 8, 0]

/-- Keyservers that always import successfully. -/
def ksOkAll : String → KeyserverOutcome := fun _ => .ok

/-- An initial filesystem with no output directory and no files. -/
def fs0 : Fs := ⟨false, none, none⟩

/-! ### Helper lemmas -/

/-- The tarball filename and the signature filename differ (their lengths
differ by the four characters of the `.sig` suffix). -/
theorem tarballFilename_ne_sigFilename (v : String) :
    tarballFilename v ≠ sigFilename v := by
  intro h
  have hlen := congrArg String.length h
  simp only [tarballFilename, sigFilename, String.length_append] at hlen
  have h1 : ".tar.gz".length = 7 := rfl
  have h2 : ".tar.gz.sig".length = 11 := rfl
  omega

/-- When every mirror in the list fails, the download loop returns failure
and records one error per mirror, keyed by that mirror, in list order. -/
theorem downloadFrom_all_fail (filename : String) (net : String → MirrorOutcome)
    (file : Option (List Nat)) (mirrors : List String)
    (h : ∀ m ∈ mirrors, (net (m ++ "/" ++ filename)).isOk = false) :
    (downloadFrom filename net file mirrors).success = false ∧
    (downloadFrom filename net file mirrors).errors.map Prod.fst = mirrors := by
  induction mirrors generalizing file with
  | nil => exact ⟨rfl, rfl⟩
  | cons m rest ih =>
    have hm := h m (List.mem_cons_self m rest)
    have hrest : ∀ x ∈ rest, (net (x ++ "/" ++ filename)).isOk = false :=
      fun x hx => h x (List.mem_cons_of_mem m hx)
    cases hnet : net (m ++ "/" ++ filename) with
    | ok content => rw [hnet] at hm; simp [MirrorOutcome.isOk] at hm
    | reqError msg =>
      have := ih file hrest
      simp only [downloadFrom, hnet]
      exact ⟨this.1, by simp [this.2]⟩
    | streamBreak written msg =>
      have := ih (some written) hrest
      simp only [downloadFrom, hnet]
      exact ⟨this.1, by simp [this.2]⟩

/-- When every mirror before `m` fails and `m` serves the file, the download
loop succeeds with the content served by `m` and contacts exactly the failing
mirrors followed by `m` — nothing after `m`. -/
theorem downloadFrom_first_ok (filename : String) (net : String → MirrorOutcome)
    (file : Option (List Nat)) (pre post : List String) (m : String) (content : List Nat)
    (hpre : ∀ p ∈ pre, (net (p ++ "/" ++ filename)).isOk = false)
    (hm : net (m ++ "/" ++ filename) = .ok content) :
    (downloadFrom filename net file (pre ++ m :: post)).success = true ∧
    (downloadFrom filename net file (pre ++ m :: post)).file = some content ∧
    (downloadFrom filename net file (pre ++ m :: post)).contacted = pre ++ [m] := by
  induction pre generalizing file with
  | nil => simp [downloadFrom, hm]
  | cons p rest ih =>
    have hp := hpre p (List.mem_cons_self p rest)
    have hrest : ∀ x ∈ rest, (net (x ++ "/" ++ filename)).isOk = false :=
      fun x hx => hpre x (List.mem_cons_of_mem p hx)
    cases hnet : net (p ++ "/" ++ filename) with
    | ok c => rw [hnet] at hp; simp [MirrorOutcome.isOk] at hp
    | reqError msg =>
      have := ih file hrest
      simp only [List.cons_append, downloadFrom, hnet]
      exact ⟨this.1, this.2.1, by simp [this.2.2]⟩
    | streamBreak written msg =>
      have := ih (some written) hrest
      simp only [List.cons_append, downloadFrom, hnet]
      exact ⟨this.1, this.2.1, by simp [this.2.2]⟩

/-! ### Claims about the Fetcher (`download_file_with_retry`) -/

/-- C2: for every mirror list in which no mirror serves the requested file,
`download_file_with_retry` returns failure and its recorded error log holds
exactly one error per attempted mirror, in mirror-list order. -/
theorem C2_fetch_all_fail_errors (filename : String) (net : String → MirrorOutcome)
    (fs : FsState) (mirrors : List String)
    (h : ∀ m ∈ mirrors, (net (m ++ "/" ++ filename)).isOk = false) :
    (download_file_with_retry filename net fs mirrors).success = false ∧
    (download_file_with_retry filename net fs mirrors).errors.map Prod.fst = mirrors := by
  have := downloadFrom_all_fail filename net fs.file mirrors h
  simpa [download_file_with_retry] using this

/-- Witness for C2 at a concrete two-mirror list where every request 404s. -/
theorem C2_fetch_all_fail_errors_witness :
    (download_file_with_retry "gettext-0.26.tar.gz" netFailAll ⟨false, none⟩
      ["https://m1", "https://m2"]).success = false ∧
    (download_file_with_retry "gettext-0.26.tar.gz" netFailAll ⟨false, none⟩
      ["https://m1", "https://m2"]).errors.map Prod.fst = ["https://m1", "https://m2"] :=
  C2_fetch_all_fail_errors "gettext-0.26.tar.gz" netFailAll ⟨false, none⟩
    ["https://m1", "https://m2"] (by decide)

/-- C3 (code bug): when the only mirror answers 2xx but its body stream
breaks mid-transfer, `download_file_with_retry` returns failure yet leaves a
partial file (the bytes written before the break) at the destination — the
claimed cleanup of partial writes does not happen. -/
theorem C3_truncated_file_left_on_stream_break :
    (download_file_with_retry "gettext-0.26.tar.gz" netStreamBreak ⟨true, none⟩
      ["https://m1"]).success = false ∧
    (download_file_with_retry "gettext-0.26.tar.gz" netStreamBreak ⟨true, none⟩
      ["https://m1"]).fs.file = some [31, 139] := by
  exact ⟨rfl, rfl⟩

/-- C6: for every mirror list split as `pre ++ m :: post` where every mirror
of `pre` fails and `m` serves the file, `download_file_with_retry` returns
success, the destination holds exactly the content served by `m` (the first
serving mirror), and the contacted mirrors are `pre ++ [m]` — no mirror after
`m` is contacted. -/
theorem C6_first_serving_mirror (filename : String) (net : String → MirrorOutcome)
    (fs : FsState) (pre post : List String) (m : String) (content : List Nat)
    (hpre : ∀ p ∈ pre, (net (p ++ "/" ++ filename)).isOk = false)
    (hm : net (m ++ "/" ++ filename) = .ok content) :
    (download_file_with_retry filename net fs (pre ++ m :: post)).success = true ∧
    (download_file_with_retry filename net fs (pre ++ m :: post)).fs.file = some content ∧
    (download_file_with_retry filename net fs (pre ++ m :: post)).contacted = pre ++ [m] := by
  have := downloadFrom_first_ok filename net fs.file pre post m content hpre hm
  simpa [download_file_with_retry] using this

/-- Witness for C6: m1 404s, m2 serves, m3 is never contacted. -/
theorem C6_first_serving_mirror_witness :
    (download_file_with_retry "gettext-0.26.tar.gz" netM1Fails ⟨false, none⟩
      ["https://m1", "https://m2", "https://m3"]).success = true ∧
    (download_file_with_retry "gettext-0.26.tar.gz" netM1Fails ⟨false, none⟩
      ["https://m1", "https://m2", "https://m3"]).fs.file = some [31, 139, 8, 0] ∧
    (download_file_with_retry "gettext-0.26.tar.gz" netM1Fails ⟨false, none⟩
      ["https://m1", "https://m2", "https://m3"]).contacted = ["https://m1", "https://m2"] :=
  C6_first_serving_mirror "gettext-0.26.tar.gz" netM1Fails ⟨false, none⟩
    ["https://m1"] ["https://m3"] "https://m2" [31, 139, 8, 0] (by decide) (by decide)

/-- C7: `download_file_with_retry` on an empty mirror list returns failure
immediately, contacting no mirror and recording no per-mirror error. -/
theorem C7_empty_mirror_list (filename : String) (net : String → MirrorOutcome)
    (fs : FsState) :
    (download_file_with_retry filename net fs []).success = false ∧
    (download_file_with_retry filename net fs []).contacted = [] ∧
    (download_file_with_retry filename net fs []).errors = [] :=
  ⟨rfl, rfl, rfl⟩

/-- C10: `download_file_with_retry` creates the destination parent directory
before trying any mirror, so the directory exists afterwards for every mirror
list (including the empty one) and every outcome. -/
theorem C10_parent_dir_created (filename : String) (net : String → MirrorOutcome)
    (fs : FsState) (mirrors : List String) :
    (download_file_with_retry filename net fs mirrors).fs.parentExists = true :=
  rfl

/-! ### Claims about the pipeline driver (`main`) -/

/-- C9: whenever the config files exist but the tarball download fails on
every mirror, `main` exits with code 1 for every flag combination (neither
`--skip-verify` nor `--allow-insecure` is consulted), prints no WARNING,
contacts no keyserver, and never requests the signature file. -/
theorem C9_tarball_failure_fatal (a : Args) (w : World) (fs : Fs)
    (kls mls : List String)
    (hk : w.gpgKeysFile = some kls) (hm : w.mirrorsFile = some mls)
    (ht : (tarballFetch a w fs).success = false) :
    (main a w fs).exitCode = 1 ∧ (main a w fs).warnings = [] ∧
    (main a w fs).keyserverContacts = [] ∧
    ∀ p ∈ (main a w fs).requests, p.2 ≠ sigFilename a.version := by
  rw [tarballFetch, mirrorsOf, hm, Option.getD_some] at ht
  simp only [main, read_config_file, hk, hm, ht, if_pos]
  refine ⟨trivial, trivial, trivial, ?_⟩
  intro p hp
  obtain ⟨m, _, rfl⟩ := List.mem_map.1 hp
  exact tarballFilename_ne_sigFilename a.version

/-- Witness for C9: every mirror 404s, flags both set, exit code is 1. -/
theorem C9_tarball_failure_fatal_witness :
    (main ⟨"0.26", none, "downloads", true, true⟩
      ⟨some ["B6301D9E1BBEAC08"], some ["https://m1"], netFailAll, true, ksOkAll, .ok⟩
      fs0).exitCode = 1 := by
  have h := C9_tarball_failure_fatal ⟨"0.26", none, "downloads", true, true⟩
    ⟨some ["B6301D9E1BBEAC08"], some ["https://m1"], netFailAll, true, ksOkAll, .ok⟩
    fs0 ["B6301D9E1BBEAC08"] ["https://m1"] rfl rfl (by decide)
  exact h.1

/-- C8: if either config file is missing, `main` exits with code 1 having
made no HTTP request and contacted no keyserver; and in an existing config
file, a line that is blank (after stripping) or whose stripped form starts
with `#` is ignored by `read_config_file`. -/
theorem C8_config_missing_and_comment_lines (a : Args) (w : World) (fs : Fs)
    (h : w.gpgKeysFile = none ∨ w.mirrorsFile = none) :
    ((main a w fs).exitCode = 1 ∧ (main a w fs).requests = [] ∧
     (main a w fs).keyserverContacts = []) ∧
    (∀ (l : String) (ls1 ls2 : List String),
      (pyStrip l = "" ∨ pyStartsWith "#" (pyStrip l) = true) →
      read_config_file (some (ls1 ++ l :: ls2)) = read_config_file (some (ls1 ++ ls2))) := by
  constructor
  · rcases h with hk | hm
    · simp [main, read_config_file, hk]
    · cases hk : w.gpgKeysFile with
      | none => simp [main, read_config_file, hk]
      | some kls => simp [main, read_config_file, hk, hm]
  · intro l ls1 ls2 hl
    simp only [read_config_file, parseLines, List.map_append, List.map_cons,
      List.filter_append, List.filter_cons]
    rcases hl with h0 | h0
    · rw [h0]; simp
    · simp [h0]

/-- Witness for C8: missing gpg-keys config gives exit 1 and no requests. -/
theorem C8_config_missing_witness :
    (main ⟨"0.26", none, "downloads", false, false⟩
      ⟨none, some ["https://m1"], netOkAll, true, ksOkAll, .ok⟩ fs0).exitCode = 1 ∧
    (main ⟨"0.26", none, "downloads", false, false⟩
      ⟨none, some ["https://m1"], netOkAll, true, ksOkAll, .ok⟩ fs0).requests = [] :=
  ⟨(C8_config_missing_and_comment_lines ⟨"0.26", none, "downloads", false, false⟩
      ⟨none, some ["https://m1"], netOkAll, true, ksOkAll, .ok⟩ fs0 (Or.inl rfl)).1.1,
   (C8_config_missing_and_comment_lines ⟨"0.26", none, "downloads", false, false⟩
      ⟨none, some ["https://m1"], netOkAll, true, ksOkAll, .ok⟩ fs0 (Or.inl rfl)).1.2.1⟩

/-- C1 counterexample: with `--skip-verify` set but every mirror failing the
tarball download, `main` exits with code 1, not with the claimed
proceed-with-warning exit code 0 — the skip flag does not shield the pipeline
from a tarball fetch failure. -/
theorem C1_skipVerify_counterexample :
    (⟨"0.26", none, "downloads", true, false⟩ : Args).skip_verify = true ∧
    (main ⟨"0.26", none, "downloads", true, false⟩
      ⟨some ["B6301D9E1BBEAC08"], some ["https://m1"], netFailAll, true, ksOkAll, .ok⟩
      fs0).exitCode = 1 := by
  exact ⟨rfl, rfl⟩

/-- C1 amended: with `--skip-verify` set, `main` never requests the signature
file; it exits 0 exactly when both config files exist and the tarball
download succeeds, in which case the only output is the loud skip warning
(proceed-with-warning); otherwise it exits 1. -/
theorem C1_skipVerify_amended (a : Args) (w : World) (fs : Fs)
    (h : a.skip_verify = true) :
    (∀ p ∈ (main a w fs).requests, p.2 ≠ sigFilename a.version) ∧
    ((main a w fs).exitCode = 0 ↔
      (configsOk w = true ∧ (tarballFetch a w fs).success = true)) ∧
    ((main a w fs).exitCode = 0 →
      (main a w fs).warnings = ["WARNING: Skipping GPG verification (--skip-verify)"]) := by
  cases hk : w.gpgKeysFile with
  | none => simp [main, read_config_file, hk, configsOk]
  | some kls =>
  cases hm : w.mirrorsFile with
  | none => simp [main, read_config_file, hk, hm, configsOk]
  | some mls =>
  have hcfg : configsOk w = true := by simp [configsOk, hk, hm]
  have hreq : ∀ p ∈ (main a w fs).requests, p.2 ≠ sigFilename a.version := by
    cases ht : (tarballFetch a w fs).success with
    | false =>
      rw [tarballFetch, mirrorsOf, hm, Option.getD_some] at ht
      simp only [main, read_config_file, hk, hm, ht]
      intro p hp
      obtain ⟨m, _, rfl⟩ := List.mem_map.1 hp
      exact tarballFilename_ne_sigFilename a.version
    | true =>
      rw [tarballFetch, mirrorsOf, hm, Option.getD_some] at ht
      simp only [main, read_config_file, hk, hm, ht, h]
      intro p hp
      obtain ⟨m, _, rfl⟩ := List.mem_map.1 hp
      exact tarballFilename_ne_sigFilename a.version
  refine ⟨hreq, ?_, ?_⟩
  · cases ht : (tarballFetch a w fs).success with
    | false =>
      have ht2 := ht
      rw [tarballFetch, mirrorsOf, hm, Option.getD_some] at ht2
      simp [main, read_config_file, hk, hm, ht2, hcfg, ht]
    | true =>
      have ht2 := ht
      rw [tarballFetch, mirrorsOf, hm, Option.getD_some] at ht2
      simp [main, read_config_file, hk, hm, ht2, hcfg, ht, h]
  · cases ht : (tarballFetch a w fs).success with
    | false =>
      have ht2 := ht
      rw [tarballFetch, mirrorsOf, hm, Option.getD_some] at ht2
      simp [main, read_config_file, hk, hm, ht2]
    | true =>
      have ht2 := ht
      rw [tarballFetch, mirrorsOf, hm, Option.getD_some] at ht2
      simp [main, read_config_file, hk, hm, ht2, h]

/-- Witness for C1 amended: config files present, single mirror serving the
tarball, skip flag set: exit 0 with exactly the skip warning. -/
theorem C1_skipVerify_amended_witness :
    (main ⟨"0.26", none, "downloads", true, false⟩
      ⟨some ["B6301D9E1BBEAC08"], some ["https://m1"], netOkAll, true, ksOkAll, .ok⟩
      fs0).exitCode = 0 ∧
    (main ⟨"0.26", none, "downloads", true, false⟩
      ⟨some ["B6301D9E1BBEAC08"], some ["https://m1"], netOkAll, true, ksOkAll, .ok⟩
      fs0).warnings = ["WARNING: Skipping GPG verification (--skip-verify)"] := by
  have h := C1_skipVerify_amended ⟨"0.26", none, "downloads", true, false⟩
    ⟨some ["B6301D9E1BBEAC08"], some ["https://m1"], netOkAll, true, ksOkAll, .ok⟩
    fs0 rfl
  have h0 : (main ⟨"0.26", none, "downloads", true, false⟩
      ⟨some ["B6301D9E1BBEAC08"], some ["https://m1"], netOkAll, true, ksOkAll, .ok⟩
      fs0).exitCode = 0 := h.2.1.mpr ⟨rfl, by decide⟩
  exact ⟨h0, h.2.2 h0⟩

/-- The parent directory of the destination exists after any
`download_file_with_retry` call (the mkdir runs before the loop). -/
theorem download_parentExists (filename : String) (net : String → MirrorOutcome)
    (fs : FsState) (mirrors : List String) :
    (download_file_with_retry filename net fs mirrors).fs.parentExists = true :=
  rfl

/-- With the gpg binary absent, `import_gpg_keys` fails immediately and
contacts no keyserver, whatever the keyserver behaviour and key list. -/
theorem import_gpg_keys_absent (ks : String → KeyserverOutcome) (keys : List String) :
    import_gpg_keys false ks keys = ⟨false, []⟩ :=
  rfl

/-- C4 counterexample: with the gpg binary absent but `--allow-insecure` set
(and both downloads succeeding), `main` exits 0 with the generic
could-not-import warning — the absent tool is converted into
proceed-with-warning rather than being fatal. -/
theorem C4_gpg_absent_counterexample :
    (main ⟨"0.26", none, "downloads", false, true⟩
      ⟨some ["B6301D9E1BBEAC08"], some ["https://m1"], netOkAll, false, ksOkAll, .ok⟩
      fs0).exitCode = 0 ∧
    (main ⟨"0.26", none, "downloads", false, true⟩
      ⟨some ["B6301D9E1BBEAC08"], some ["https://m1"], netOkAll, false, ksOkAll, .ok⟩
      fs0).warnings = ["WARNING: Could not import GPG keys, continuing anyway"] :=
  ⟨rfl, rfl⟩

/-- C4 amended: an absent gpg binary makes `import_gpg_keys` fail
immediately without contacting any keyserver (distinguished only in the
diagnostic message), and `main` then treats it exactly like an ordinary
key-import failure: exit 1 with default flags, proceed-with-warning (exit 0)
under `--allow-insecure`. -/
theorem C4_gpg_absent_amended (a : Args) (w : World) (fs : Fs)
    (kls mls : List String)
    (hk : w.gpgKeysFile = some kls) (hm : w.mirrorsFile = some mls)
    (hskip : a.skip_verify = false)
    (ht : (tarballFetch a w fs).success = true)
    (hs : (sigFetch a w fs).success = true)
    (hg : w.gpgPresent = false) :
    (import_gpg_keys w.gpgPresent w.ks (parseLines kls)).success = false ∧
    (import_gpg_keys w.gpgPresent w.ks (parseLines kls)).contacted = [] ∧
    ((main a w fs).exitCode = if a.allow_insecure then 0 else 1) ∧
    (a.allow_insecure = true →
      (main a w fs).warnings = ["WARNING: Could not import GPG keys, continuing anyway"]) := by
  have ht2 := ht
  rw [tarballFetch, mirrorsOf, hm, Option.getD_some] at ht2
  have hs2 := hs
  rw [sigFetch, mirrorsOf, hm, Option.getD_some] at hs2
  refine ⟨by rw [hg, import_gpg_keys_absent], by rw [hg, import_gpg_keys_absent], ?_, ?_⟩
  · cases hai : a.allow_insecure <;>
      simp [main, read_config_file, hk, hm, ht2, hs2, hskip, hai, hg,
        import_gpg_keys_absent, download_parentExists]
  · intro hai
    simp [main, read_config_file, hk, hm, ht2, hs2, hskip, hai, hg,
      import_gpg_keys_absent, download_parentExists]

/-- Witness for C4 amended: gpg absent, `--allow-insecure` set, downloads
fine: exit code 0 with the could-not-import warning. -/
theorem C4_gpg_absent_amended_witness :
    (main ⟨"0.26", none, "downloads", false, true⟩
      ⟨some ["B6301D9E1BBEAC08"], some ["https://m2"], netOkAll, false, ksOkAll, .ok⟩
      fs0).exitCode = 0 ∧
    (main ⟨"0.26", none, "downloads", false, true⟩
      ⟨some ["B6301D9E1BBEAC08"], some ["https://m2"], netOkAll, false, ksOkAll, .ok⟩
      fs0).warnings = ["WARNING: Could not import GPG keys, continuing anyway"] := by
  have h := C4_gpg_absent_amended ⟨"0.26", none, "downloads", false, true⟩
    ⟨some ["B6301D9E1BBEAC08"], some ["https://m2"], netOkAll, false, ksOkAll, .ok⟩
    fs0 ["B6301D9E1BBEAC08"] ["https://m2"] rfl rfl rfl (by decide) (by decide) rfl
  exact ⟨by simpa using h.2.2.1, h.2.2.2 rfl⟩

/-- C5: when the pipeline reaches signature verification and it fails, `main`
exits 1 with default flags; with `--allow-insecure` it exits 0 and the
warning block states that the tarball could be tampered with. -/
theorem C5_verification_failure_gate (a : Args) (w : World) (fs : Fs)
    (kls mls : List String)
    (hk : w.gpgKeysFile = some kls) (hm : w.mirrorsFile = some mls)
    (hskip : a.skip_verify = false)
    (ht : (tarballFetch a w fs).success = true)
    (hs : (sigFetch a w fs).success = true)
    (hi : (import_gpg_keys w.gpgPresent w.ks (parseLines kls)).success = true)
    (hv : verify_signature w.verify = false) :
    ((main a w fs).exitCode = if a.allow_insecure then 0 else 1) ∧
    (a.allow_insecure = true →
      "WARNING: This tarball could be tampered with!" ∈ (main a w fs).warnings) := by
  have ht2 := ht
  rw [tarballFetch, mirrorsOf, hm, Option.getD_some] at ht2
  have hs2 := hs
  rw [sigFetch, mirrorsOf, hm, Option.getD_some] at hs2
  constructor
  · cases hai : a.allow_insecure <;>
      simp [main, read_config_file, hk, hm, ht2, hs2, hskip, hai, hi, hv,
        download_parentExists]
  · intro hai
    simp [main, read_config_file, hk, hm, ht2, hs2, hskip, hai, hi, hv,
      download_parentExists]

/-- Witness for C5: failing verification under `--allow-insecure` exits 0 and
warns about tampering. -/
theorem C5_verification_failure_gate_witness :
    (main ⟨"0.26", none, "downloads", false, true⟩
      ⟨some ["B6301D9E1BBEAC08"], some ["https://m1"], netOkAll, true, ksOkAll,
        .failed "BAD signature"⟩ fs0).exitCode = 0 ∧
    "WARNING: This tarball could be tampered with!" ∈
      (main ⟨"0.26", none, "downloads", false, true⟩
        ⟨some ["B6301D9E1BBEAC08"], some ["https://m1"], netOkAll, true, ksOkAll,
          .failed "BAD signature"⟩ fs0).warnings := by
  have h := C5_verification_failure_gate ⟨"0.26", none, "downloads", false, true⟩
    ⟨some ["B6301D9E1BBEAC08"], some ["https://m1"], netOkAll, true, ksOkAll,
      .failed "BAD signature"⟩ fs0 ["B6301D9E1BBEAC08"] ["https://m1"]
    rfl rfl rfl (by decide) (by decide) (by decide) rfl
  exact ⟨by simpa using h.1, h.2 rfl⟩

end VerifyGpg
